import Mathlib

/-!
Verification of the FAT32 forensic-recovery engine (fsrecov).

Shallow embedding of the three recovery-engine variants:
* namespace Fsrecov  — src/fsrecov/fsrecov.c
* namespace Shadow   — src/.shadow/fsrecov/fsrecov.c
* namespace Teest    — src/.shadow/fsrecov/teest.c

Machine integers are modelled as Nat with an explicit `% 2^32` (written
4294967296) wherever the C source computes in 32-bit unsigned arithmetic.
Pointers into the memory-mapped image are modelled as byte offsets from
the start of the image; the image content is a byte map `Nat → Nat`.
-/

set_option maxRecDepth 4096

/-- 2^32, the modulus of 32-bit unsigned arithmetic in the C source. -/
def U32 : Nat := 4294967296

namespace Fsrecov

/--
The FAT32 boot-sector header fields used by fsrecov.c.  The struct layout
comes from the repository header fat32.h (not under src/); the field names
and widths (u16/u8/u32) match their uses in fsrecov.c and the spec's
VolumeGeometry.  Fields hold their numeric values (already < 2^width).
-/
structure fat32hdr where
  BPB_BytsPerSec : Nat   -- u16
  BPB_SecPerClus : Nat   -- u8
  BPB_RsvdSecCnt : Nat   -- u16
  BPB_NumFATs : Nat      -- u8
  BPB_FATSz32 : Nat      -- u32
  BPB_TotSec32 : Nat     -- u32
  Signature_word : Nat   -- u16
deriving DecidableEq, Repr

/-- `off_t image_size = hdr->BPB_TotSec32 * hdr->BPB_BytsPerSec;` —
the multiplication happens in 32-bit unsigned arithmetic before the
conversion to off_t, hence the wrap. -/
def image_size (hdr : fat32hdr) : Nat :=
  (hdr.BPB_TotSec32 * hdr.BPB_BytsPerSec) % U32

/--
map_disk (fsrecov.c): maps the file, then accepts iff the signature word is
0xaa55 and `BPB_TotSec32 * BPB_BytsPerSec` (computed in u32) equals the
file length.  A zero-length file is rejected earlier because POSIX mmap
fails on length 0 (the code returns NULL on MAP_FAILED).  Returns the
header on success, none on rejection (main then exits with a non-zero
status).
-/
def map_disk (hdr : fat32hdr) (fileLen : Nat) : Option fat32hdr :=
  if fileLen = 0 then none
  else if hdr.Signature_word = 43605 ∧
          (hdr.BPB_TotSec32 * hdr.BPB_BytsPerSec) % U32 = fileLen then some hdr
  else none

/-- The map_disk failure handling in main (fsrecov.c lines 85-90): a
rejected image makes main return EXIT_FAILURE (a non-zero status) before
any scanning. -/
def fsrecov_main_result (hdr : fat32hdr) (fileLen : Nat) : Except Nat fat32hdr :=
  match map_disk hdr fileLen with
  | some h => Except.ok h
  | none => Except.error 1

/--
cluster_to_sec (fsrecov.c lines 261-292): computes the byte offset of the
start of cluster `cluster_num` in 32-bit unsigned arithmetic and returns it
unless the start offset falls outside the mapped image.  The source's
second check (whole cluster range past the image end) only prints a
diagnostic and still returns the pointer, so it does not appear in the
result.  `cluster_num - 2` is u32 subtraction, hence the `+ U32 - 2` wrap.
-/
def cluster_to_sec (hdr : fat32hdr) (cluster_num : Nat) : Option Nat :=
  let data_sector_offset :=
    (hdr.BPB_RsvdSecCnt + hdr.BPB_NumFATs * hdr.BPB_FATSz32) % U32
  let cluster_offset_in_sectors :=
    (((cluster_num % U32) + U32 - 2) * hdr.BPB_SecPerClus) % U32
  let target_sector := (data_sector_offset + cluster_offset_in_sectors) % U32
  let ptrOff := (target_sector * hdr.BPB_BytsPerSec) % U32
  if ptrOff ≥ image_size hdr then none else some ptrOff

/--
The maximum valid cluster number as computed inside read_all_dents
(fsrecov.c lines 365-371): `(TotSec32 - data_start_sector) / SecPerClus + 1`
in u32 arithmetic.
-/
def max_valid_cluster_num (hdr : fat32hdr) : Nat :=
  let data_start_sector :=
    (hdr.BPB_RsvdSecCnt + hdr.BPB_NumFATs * hdr.BPB_FATSz32) % U32
  let num_data_sectors := ((hdr.BPB_TotSec32 % U32) + U32 - data_start_sector) % U32
  let total_data_clusters := num_data_sectors / hdr.BPB_SecPerClus
  (total_data_clusters + 1) % U32

/-- Result of read_bmp_data: the bytes copied out of the image, and whether
the copy stopped early because a cluster could not be mapped (the early
`return bmp_data` path at fsrecov.c lines 519-526). -/
structure BmpData where
  bytes : List Nat
  incomplete : Bool
deriving DecidableEq, Repr

/--
The copy loop of read_bmp_data (fsrecov.c lines 515-537), one recursive
step per needed cluster.  `disk` is the mapped image as a byte map.
On a cluster that cluster_to_sec rejects, the function returns the bytes
copied so far and flags the result incomplete; otherwise it copies
`min (size - bytes_copied) bytes_per_cluster` bytes from the cluster and
moves to the next sequential cluster (u32 increment).
-/
def read_bmp_loop (hdr : fat32hdr) (disk : Nat → Nat) (bpc size : Nat) :
    Nat → Nat → Nat → List Nat → BmpData
  | 0, _, _, acc => { bytes := acc, incomplete := false }
  | fuel + 1, current_cluster, bytes_copied, acc =>
    match cluster_to_sec hdr current_cluster with
    | none => { bytes := acc, incomplete := true }
    | some off =>
      let bytes_to_copy := min (size - bytes_copied) bpc
      read_bmp_loop hdr disk bpc size fuel ((current_cluster + 1) % U32)
        (bytes_copied + bytes_to_copy)
        (acc ++ (List.range bytes_to_copy).map (fun j => disk (off + j)))

/--
read_bmp_data (fsrecov.c lines 484-540): returns none when the declared
size is 0 (the explicit size-0 rejection at lines 498-502); otherwise
copies `clusters_needed = ceil(size / bytes_per_cluster)` clusters starting
at first_cluster.  malloc is assumed to succeed.
-/
def read_bmp_data (hdr : fat32hdr) (disk : Nat → Nat)
    (first_cluster size : Nat) : Option BmpData :=
  if size = 0 then none
  else
    let bytes_per_cluster := hdr.BPB_SecPerClus * hdr.BPB_BytsPerSec
    let clusters_needed := (size + bytes_per_cluster - 1) / bytes_per_cluster
    some (read_bmp_loop hdr disk bytes_per_cluster size clusters_needed
      first_cluster 0 [])

/--
Specification-side materialize (spec §4.5), stated in the spec's own terms:
walk the chain's clusters in order; from each cluster take
`min remaining cluster_size` bytes; if a chain entry cannot be mapped by
the Volume Accessor, return the short buffer collected so far and mark the
result incomplete.  Used to settle the refinement claim C4 against
read_bmp_data.
-/
def materialize (lookup : Nat → Option Nat) (disk : Nat → Nat) (bpc : Nat) :
    Nat → Nat → Nat → List Nat × Bool
  | 0, _, _ => ([], false)
  | n + 1, cur, remaining =>
    match lookup cur with
    | none => ([], true)
    | some off =>
      let take := min remaining bpc
      let rest := materialize lookup disk bpc n ((cur + 1) % U32) (remaining - take)
      ((List.range take).map (fun j => disk (off + j)) ++ rest.1, rest.2)

/--
A 32-byte directory-entry record as used by the raw stride scan
(fields of struct fat32dent from the repository header fat32.h that
read_all_dents reads).  DIR_Name holds the 11 raw name bytes; DIR_Attr is
the attribute byte at offset 11 (so the source's out-of-bounds read
`DIR_Name[11]` yields DIR_Attr).
-/
structure fat32dent where
  DIR_Name : List Nat     -- 11 bytes
  DIR_Attr : Nat          -- u8
  DIR_FstClusHI : Nat     -- u16
  DIR_FstClusLO : Nat     -- u16
  DIR_FileSize : Nat      -- u32
deriving DecidableEq, Repr

/--
One position of the raw 16-byte-stride scan, decoded: the directory entry
at the position, together with the characters the backward LFN walk
(fsrecov.c lines 382-430) collects for it.  The backward walk over raw
memory is abstracted into the `lfn_chars` field; none of the scan's
control flow depends on its content.
-/
structure ScanRec where
  dent : fat32dent
  lfn_chars : List Nat
deriving DecidableEq, Repr

/-- Registry record struct bmp_file (fsrecov.c lines 49-55). -/
structure bmp_file where
  short_name : List Nat
  full_name : Option (List Nat)
  first_cluster : Nat
  size : Nat
deriving DecidableEq, Repr

/-- The extension-signature match of the raw scan (fsrecov.c lines 350-351):
DIR_Name[8..10] = "BMP" and DIR_Name[11] = 0x20 — the latter byte is the
attribute byte of the packed struct. -/
def dentMatches (d : fat32dent) : Bool :=
  d.DIR_Name.getD 8 0 = 66 ∧ d.DIR_Name.getD 9 0 = 77 ∧
    d.DIR_Name.getD 10 0 = 80 ∧ d.DIR_Attr = 32

/-- Short-name sanitisation (fsrecov.c lines 433-438): keep printable ASCII,
replace everything else by a question mark. -/
def mk_short_name (d : fat32dent) : List Nat :=
  (d.DIR_Name.take 11).map (fun b => if 32 ≤ b ∧ b ≤ 126 then b else 63)

/-- First cluster decode (fsrecov.c line 362):
`(DIR_FstClusHI << 16) | DIR_FstClusLO`. -/
def dent_first_cluster (d : fat32dent) : Nat :=
  (d.DIR_FstClusHI <<< 16) ||| d.DIR_FstClusLO

/-- MAX_FILE (fsrecov.c line 23). -/
def MAX_FILE : Nat := 256

/--
The raw stride scan of read_all_dents (fsrecov.c lines 345-470) over the
decoded scan positions, carrying the registry accumulated so far.  Per
matching entry: stop the whole scan if the registry is full (lines
354-359), silently drop the entry if its first cluster lies outside
[2, max_valid_cluster_num] (lines 364-376), otherwise append a bmp_file
record.  strdup is assumed to succeed (the allocation-failure `continue`
at lines 455-465 is not modelled).
-/
def read_all_dents_loop (hdr : fat32hdr) :
    List ScanRec → List bmp_file → List bmp_file
  | [], acc => acc
  | r :: rest, acc =>
    if dentMatches r.dent then
      if MAX_FILE ≤ acc.length then acc
      else
        let first_cluster := dent_first_cluster r.dent
        if first_cluster < 2 ∨ first_cluster > max_valid_cluster_num hdr then
          read_all_dents_loop hdr rest acc
        else
          read_all_dents_loop hdr rest (acc ++
            [{ short_name := mk_short_name r.dent,
               full_name := if r.lfn_chars.length > 0 then some r.lfn_chars else none,
               first_cluster := first_cluster,
               size := r.dent.DIR_FileSize }])
    else read_all_dents_loop hdr rest acc

/-- read_all_dents, started on an empty registry. -/
def read_all_dents (hdr : fat32hdr) (recs : List ScanRec) : List bmp_file :=
  read_all_dents_loop hdr recs []

/--
The per-candidate output decision of main (fsrecov.c lines 105-143): a
recovered file is written for a registry candidate exactly when
read_bmp_data returns a buffer; combined with the scanner filter this is
the end-to-end "candidate produces an output file" predicate used by
claim C6.
-/
def candidate_recovered (hdr : fat32hdr) (disk : Nat → Nat)
    (first_cluster size : Nat) : Bool :=
  (2 ≤ first_cluster ∧ first_cluster ≤ max_valid_cluster_num hdr : Bool) &&
    (read_bmp_data hdr disk first_cluster size).isSome

end Fsrecov

namespace Shadow

/-- Little-endian load of `n` bytes starting at `off` from the byte map. -/
def readLE (disk : Nat → Nat) (off : Nat) : Nat → Nat
  | 0 => 0
  | n + 1 => disk off + 256 * readLE disk (off + 1) n

/-- Reinterpret a 32-bit unsigned value as the C int32_t it stores. -/
def asInt32 (v : Nat) : Int :=
  if v < 2147483648 then (v : Int) else (v : Int) - 4294967296

/--
is_bmp_header (.shadow/fsrecov.c lines 323-340): the two-byte signature
must be "BM" (0x4D42) and the packed BMPHeader/BMPInfoHeader fields read
from the cluster must satisfy the plausibility checks: dataOffset >= 54,
headerSize >= 40, bitsPerPixel == 24, 0 < width < 10000,
0 < height < 10000.  Field offsets follow the packed structs: dataOffset
at +10, headerSize at +14, width at +18, height at +22 (int32),
bitsPerPixel at +28 (u16).
-/
def is_bmp_header (disk : Nat → Nat) (base : Nat) : Bool :=
  if readLE disk base 2 = 19778 then
    let dataOffset := readLE disk (base + 10) 4
    let headerSize := readLE disk (base + 14) 4
    let width := asInt32 (readLE disk (base + 18) 4)
    let height := asInt32 (readLE disk (base + 22) 4)
    let bitsPerPixel := readLE disk (base + 28) 2
    dataOffset ≥ 54 ∧ headerSize ≥ 40 ∧ bitsPerPixel = 24 ∧
      width > 0 ∧ width < 10000 ∧ height > 0 ∧ height < 10000
  else false

/--
is_bmp_data (.shadow/fsrecov.c lines 444-473): slide a 3-byte-pixel
window over the cluster (i = 0, 3, 6, … while i < size - 6), count the
windows whose summed per-channel colour distance to the next pixel is
below 100, and accept when that count exceeds size / 15.  The iteration
indices i = 3k with i < size - 6 are exactly k < (size - 6 + 2) / 3.
-/
def is_bmp_data (disk : Nat → Nat) (base size : Nat) : Bool :=
  let diffAt := fun i =>
    ((disk (base + i + 2) : Int) - disk (base + i + 5)).natAbs +
      ((disk (base + i + 1) : Int) - disk (base + i + 4)).natAbs +
      ((disk (base + i) : Int) - disk (base + i + 3)).natAbs
  let smooth_transitions :=
    ((List.range ((size - 6 + 2) / 3)).filter (fun k => diffAt (3 * k) < 100)).length
  smooth_transitions > size / 15

/-- The cluster-offset computation repeated through .shadow/fsrecov.c:
`(dataStartSector * bytesPerSector) + ((c - 2) * clusterSize)` in u32
arithmetic. -/
def clusterOffset (dataStartSector bytesPerSector clusterSize c : Nat) : Nat :=
  (dataStartSector * bytesPerSector + ((c % U32) + U32 - 2) * clusterSize) % U32

/-- The content probe recover_file_data applies to a cluster:
`is_bmp_data(disk + clusterOffset, clusterSize)`. -/
def cluster_probe (disk : Nat → Nat)
    (dataStartSector bytesPerSector clusterSize c : Nat) : Bool :=
  is_bmp_data disk (clusterOffset dataStartSector bytesPerSector clusterSize c)
    clusterSize

/--
The contiguity loop of recover_file_data (.shadow/fsrecov.c lines
493-514): for i = 1 .. clustersNeeded-1 (fuel = clustersNeeded - 1) probe
cluster startCluster + i (u32 add); on failure stop with contiguous =
false, on success record the cluster at index i.  The source's `if (i ==
0)` header branch is dead code because the loop starts at i = 1.
-/
def contigLoop (probe : Nat → Bool) (startCluster : Nat) :
    Nat → Nat → List Nat → List Nat × Bool
  | 0, _, cl => (cl, true)
  | fuel + 1, i, cl =>
    let nextCluster := (startCluster + i) % U32
    if probe nextCluster then
      contigLoop probe startCluster fuel (i + 1) (cl.set i nextCluster)
    else (cl, false)

/-- The bounded forward search of the fallback (.shadow/fsrecov.c lines
530-543): probe currentCluster + offset for offset = 1 .. SEARCH_RANGE
(fuel = 100) and return the first candidate that passes. -/
def findCand (probe : Nat → Bool) (cur : Nat) : Nat → Nat → Option Nat
  | _, 0 => none
  | offset, fuel + 1 =>
    let candidateCluster := (cur + offset) % U32
    if probe candidateCluster then some candidateCluster
    else findCand probe cur (offset + 1) fuel

/-- The give-up fill of the fallback (.shadow/fsrecov.c lines 546-551):
for i = currentIndex+1 .. clustersNeeded-1 set
clusters[i] = clusters[currentIndex] + (i - currentIndex) (u32 add). -/
def contigFillLoop (idx : Nat) : Nat → Nat → List Nat → List Nat
  | 0, _, cl => cl
  | fuel + 1, i, cl =>
    contigFillLoop idx fuel (i + 1) (cl.set i ((cl.getD idx 0 + (i - idx)) % U32))

/--
The fallback while-loop of recover_file_data (.shadow/fsrecov.c lines
526-553): while remainingClusters > 0 (the fuel) and currentIndex <
clustersNeeded, search forward for the next cluster; on success record it
at index currentIndex+1 and continue from it; on failure fill the rest
contiguously from the last confirmed cluster and stop.
-/
def fallbackLoop (probe : Nat → Bool) (clustersNeeded : Nat) :
    Nat → Nat → Nat → List Nat → List Nat
  | 0, _, _, cl => cl
  | remaining + 1, cur, idx, cl =>
    if idx < clustersNeeded then
      match findCand probe cur 1 100 with
      | some cand =>
        fallbackLoop probe clustersNeeded remaining cand (idx + 1)
          (cl.set (idx + 1) cand)
      | none => contigFillLoop idx (clustersNeeded - (idx + 1)) (idx + 1) cl
    else cl

/-- RecoveredFile (.shadow/fsrecov.c lines 66-73), the fields
recover_file_data writes.  The C array clusters[] is malloc'd with
clustersNeeded slots; uninitialized slots are modelled as 0. -/
structure RecoveredFile where
  clusters : List Nat
  clusterCount : Nat
  valid : Bool
deriving DecidableEq, Repr

/--
recover_file_data (.shadow/fsrecov.c lines 476-557): compute
clustersNeeded = ceil(fileSize / clusterSize), record startCluster at
index 0, try the contiguity hypothesis, and if it fails (and more than one
cluster is needed) rerun the bounded-search fallback.  valid is set to
true on every path that survives the (assumed successful) malloc.
-/
def recover_file_data (disk : Nat → Nat)
    (startCluster fileSize clusterSize dataStartSector bytesPerSector : Nat) :
    RecoveredFile :=
  let clustersNeeded := (fileSize + clusterSize - 1) / clusterSize
  let probe := cluster_probe disk dataStartSector bytesPerSector clusterSize
  let cl0 := (List.replicate clustersNeeded 0).set 0 startCluster
  let r1 := contigLoop probe startCluster (clustersNeeded - 1) 1 cl0
  if ¬ r1.2 ∧ clustersNeeded > 1 then
    let cl2 := r1.1.set 0 startCluster
    { clusters := fallbackLoop probe clustersNeeded (clustersNeeded - 1)
        startCluster 0 cl2,
      clusterCount := clustersNeeded, valid := true }
  else { clusters := r1.1, clusterCount := clustersNeeded, valid := true }

/-- struct fat32_lfn_entry (.shadow/fsrecov.c lines 41-50); the name parts
hold 5, 6 and 2 UTF-16 code units. -/
structure fat32_lfn_entry where
  LDIR_Ord : Nat
  LDIR_Name1 : List Nat
  LDIR_Attr : Nat
  LDIR_Chksum : Nat
  LDIR_Name2 : List Nat
  LDIR_Name3 : List Nat
deriving DecidableEq, Repr

/-- One name-part loop of extract_long_filename (.shadow/fsrecov.c lines
418-435): copy units until the first 0x0000 or 0xFFFF, then break out of
this part's loop only. -/
def take_part : List Nat → List Nat
  | [] => []
  | c :: rest => if c = 0 ∨ c = 65535 then [] else c :: take_part rest

/-- The units one LFN fragment contributes in extract_long_filename: each
of Name1, Name2, Name3 is truncated at its own first null/padding unit,
and the next part is still processed (the break leaves only the inner
loop). -/
def extract_lfn_units (e : fat32_lfn_entry) : List Nat :=
  take_part e.LDIR_Name1 ++ take_part e.LDIR_Name2 ++ take_part e.LDIR_Name3

/-- extract_long_filename (.shadow/fsrecov.c lines 407-441): fragments are
processed in reverse storage order and each unit is narrowed to its low
byte.
The 256-byte calloc buffer bound is not modelled (no claim concerns it). -/
def extract_long_filename (entries : List fat32_lfn_entry) : List Nat :=
  ((entries.reverse).flatMap (fun e => extract_lfn_units e)).map (fun c => c % 256)

/-- Modelled from the spec (§4.2 decode_lfn_text): the fragment's at most
13 code units taken in order from Name1, Name2, Name3 and truncated at the
first null or 0xFFFF padding unit.  Spec-side definition for the
refinement claim C9. -/
def decode_lfn_text_spec (e : fat32_lfn_entry) : List Nat :=
  List.takeWhile (fun c => ¬(c = 0 ∨ c = 65535))
    (e.LDIR_Name1 ++ e.LDIR_Name2 ++ e.LDIR_Name3)

end Shadow

namespace Teest

/--
calculate_lfn_checksum (teest.c lines 47-53):
`sum = ((sum & 1) << 7) + (sum >> 1) + b` over the 11 raw short-name
bytes, in uint8_t (wrap mod 256).  The C loop runs over exactly 11 bytes;
callers pass 11-byte names, which theorems state as a length hypothesis.
-/
def calculate_lfn_checksum (short_name_bytes : List Nat) : Nat :=
  short_name_bytes.foldl
    (fun sum b => (((sum &&& 1) <<< 7) + (sum >>> 1) + b) % 256) 0

/-- Modelled from the spec (§4.2 checksum): for each byte b,
`sum = rotate_right(sum, 1) + b`, 8-bit wrapping.  Spec-side definition
for the refinement claim C8. -/
def rotr8 (s : Nat) : Nat := (s >>> 1) ||| ((s &&& 1) <<< 7)

/-- Modelled from the spec (§4.2 checksum): the rotate-right fold. -/
def lfn_checksum_spec (name : List Nat) : Nat :=
  name.foldl (fun sum b => (rotr8 sum + b) % 256) 0

/-- ParsedEntryInfo (teest.c lines 30-44), the fields
reconstruct_lfn_from_sequence reads.  short_name holds the 11 raw name
bytes (the C field is 12 chars with a trailing NUL). -/
structure ParsedEntryInfo where
  lfn_sequence : Nat
  lfn_checksum : Nat
  lfn_name1 : List Nat
  lfn_name2 : List Nat
  lfn_name3 : List Nat
  short_name : List Nat
deriving DecidableEq, Repr

/-- One name-part copy in reconstruct_lfn_from_sequence (teest.c lines
184-195): units until the first 0x0000/0xFFFF; the Bool records whether
the goto fired (which skips the REMAINING parts of this entry). -/
def take_units : List Nat → List Nat × Bool
  | [] => ([], false)
  | c :: rest =>
    if c = 0 ∨ c = 65535 then ([], true)
    else
      let r := take_units rest
      (c :: r.1, r.2)

/-- The units one LFN entry contributes in reconstruct_lfn_from_sequence:
unlike the .shadow variant, the goto ends the whole entry at the first
null/padding unit. -/
def entry_units (e : ParsedEntryInfo) : List Nat :=
  let r1 := take_units e.lfn_name1
  if r1.2 then r1.1
  else
    let r2 := take_units e.lfn_name2
    if r2.2 then r1.1 ++ r2.1
    else r1.1 ++ r2.1 ++ (take_units e.lfn_name3).1

/-- utf16le_to_printable_ascii (teest.c lines 112-119). -/
def utf16le_to_printable_ascii (c : Nat) : Nat :=
  if (32 ≤ c ∧ c ≤ 126) ∨ c = 95 ∨ c = 45 then c else 63

/-- The checksum lookup in reconstruct_lfn_from_sequence (teest.c lines
148-156): the stored checksum of the first entry whose sequence number
(with the last-entry bit masked: `& 0xBF`) is 1. -/
def find_seq1 : List ParsedEntryInfo → Option Nat
  | [] => none
  | e :: rest =>
    if e.lfn_sequence &&& 191 = 1 then some e.lfn_checksum else find_seq1 rest

/-- The short-name fallback branch of reconstruct_lfn_from_sequence
(teest.c lines 127-143): strncpy of the short name into the buffer, then
every space is replaced by an underscore (after which the
truncate-at-first-space loop finds no space left and does nothing). -/
def fallback_short_name (short_name : List Nat) (bufferSize : Nat) : List Nat :=
  (short_name.take (bufferSize - 1)).map (fun c => if c = 32 then 95 else c)

/--
reconstruct_lfn_from_sequence (teest.c lines 126-205), returning the
filename characters written to the buffer together with whether the
checksum-mismatch diagnostic fired.  With at least one LFN entry the
function recomputes the checksum from the short entry's name bytes,
compares it with the checksum stored in the sequence-1 entry, prints the
mismatch diagnostic if they differ — and then proceeds with the LFN
reconstruction regardless, converting each unit to printable ASCII.
-/
def reconstruct_lfn_from_sequence (lfns : List ParsedEntryInfo)
    (short_entry : ParsedEntryInfo) (bufferSize : Nat) : List Nat × Bool :=
  if lfns.length = 0 then
    (fallback_short_name short_entry.short_name bufferSize, false)
  else
    let calculated_checksum := calculate_lfn_checksum short_entry.short_name
    let warned :=
      match find_seq1 lfns with
      | some expected_checksum => calculated_checksum != expected_checksum
      | none => false
    let full_utf16_name := lfns.flatMap entry_units
    ((full_utf16_name.map utf16le_to_printable_ascii).take (bufferSize - 1),
      warned)

/-- A well-formed LfnSequence for a short name (spec §3 LfnSequence
invariant): every fragment stores the checksum recomputed from the short
name's 11 raw bytes. -/
def well_formed_checksums (name : List Nat) (frags : List ParsedEntryInfo) : Prop :=
  ∀ f ∈ frags, f.lfn_checksum = calculate_lfn_checksum name

end Teest

namespace Fix

/-- A small consistent volume geometry used by concrete witnesses:
512-byte sectors, 1 sector per cluster, 1 reserved sector, 1 FAT of 1
sector, 5 sectors total (2560-byte image, data region at sector 2). -/
def hdr1 : Fsrecov.fat32hdr :=
  { BPB_BytsPerSec := 512, BPB_SecPerClus := 1, BPB_RsvdSecCnt := 1,
    BPB_NumFATs := 1, BPB_FATSz32 := 1, BPB_TotSec32 := 5,
    Signature_word := 43605 }

/-- An all-zero image. -/
def disk0 : Nat → Nat := fun _ => 0

/-- An image whose cluster 2 (at byte offset 64 under the 32-byte-cluster
witness geometry data_start_sector = 2, bytes_per_sector = 32) carries a
valid 24-bit BMP header, with all other bytes zero. -/
def diskC2 : Nat → Nat := fun a =>
  if a = 64 then 66 else if a = 65 then 77
  else if a = 74 then 54 else if a = 78 then 40
  else if a = 82 then 1 else if a = 86 then 1
  else if a = 92 then 24 else 0

/-- An image for the fallback-search witness: clusters 3..8 (byte offsets
96..287 under the 32-byte-cluster witness geometry) hold a hard-edged
checkerboard pixel pattern that fails the smoothness heuristic, while
cluster 9 (offsets 288..319) is zero-filled and passes it. -/
def diskC3 : Nat → Nat := fun a =>
  if 96 ≤ a ∧ a < 288 then (if ((a - 96) / 3) % 2 = 0 then 0 else 255) else 0

/-- The 11 raw short-name bytes "0M15CW~1BMP" from the directory-entry
dump in teest.c. -/
def name11 : List Nat := [48, 77, 49, 53, 67, 87, 126, 49, 66, 77, 80]

end Fix


/-!
## Theorems

One main theorem per claim (C1 .. C10), with counterexamples and witnesses
as separate closed theorems.
-/

/--
Claim C1, counterexample.  The claim states that for every cluster index
c < 2 the conversion returns the OutOfRange error (NULL).  Under the
consistent geometry Fix.hdr1 (data region starting at sector 2), cluster 0
wraps around in the 32-bit arithmetic: (0 - 2) sectors + the 2-sector data
start lands exactly on byte offset 0, inside the image, and
cluster_to_sec returns a non-error pointer.
-/
theorem C1_counterexample :
    (0 : Nat) < 2 ∧ Fsrecov.cluster_to_sec Fix.hdr1 0 = some 0 := by
  constructor
  · decide
  · decide

/--
Claim C1, amended: cluster_to_sec only checks that the START of the
computed (32-bit-wrapped) cluster offset lies inside the mapped image —
whenever it returns an address, that address is strictly inside the image;
it does not guarantee rejection of every c < 2 or c > max_valid_cluster
(wraparound or a partial final cluster can place the start in bounds), nor
that the full cluster-sized range is contained (that check only prints a
diagnostic).
-/
theorem C1_cluster_to_sec_start_in_bounds (hdr : Fsrecov.fat32hdr)
    (c off : Nat) (h : Fsrecov.cluster_to_sec hdr c = some off) :
    off < Fsrecov.image_size hdr := by
  unfold Fsrecov.cluster_to_sec at h
  dsimp only at h
  split at h
  · exact absurd h (by simp)
  · rename_i hlt
    cases h
    omega

/-- Claim C1, witness for the amended theorem: cluster 2 of Fix.hdr1 maps
to byte offset 1024, inside the 2560-byte image. -/
theorem C1_witness : (1024 : Nat) < Fsrecov.image_size Fix.hdr1 :=
  C1_cluster_to_sec_start_in_bounds Fix.hdr1 2 1024 (by decide)

/--
Claim C7, counterexample.  The claim requires acceptance only when
`bytes_per_sector * total_sectors` equals the file length.  The product is
computed in 32-bit unsigned arithmetic, so a 512-byte file whose header
declares TotSec32 = 8388609 and BytsPerSec = 512 (true product 2^32 + 512)
is accepted even though the product does not equal the file length.
-/
theorem C7_counterexample :
    (Fsrecov.map_disk
      { BPB_BytsPerSec := 512, BPB_SecPerClus := 1, BPB_RsvdSecCnt := 1,
        BPB_NumFATs := 1, BPB_FATSz32 := 1, BPB_TotSec32 := 8388609,
        Signature_word := 43605 } 512).isSome = true ∧
    8388609 * 512 ≠ 512 := by
  constructor
  · decide
  · decide

/--
Claim C7, amended: map_disk accepts exactly the images with nonzero file
length (a zero-length mmap fails), signature word 0xAA55, and
`TotSec32 * BytsPerSec` congruent to the file length modulo 2^32 (the
product is computed in 32-bit unsigned arithmetic); on rejection main
stops before any scanning with the non-zero status EXIT_FAILURE.
-/
theorem C7_map_disk_validation (hdr : Fsrecov.fat32hdr) (fileLen : Nat) :
    ((Fsrecov.map_disk hdr fileLen).isSome = true ↔
      (fileLen ≠ 0 ∧ hdr.Signature_word = 43605 ∧
        (hdr.BPB_TotSec32 * hdr.BPB_BytsPerSec) % U32 = fileLen)) ∧
    (Fsrecov.map_disk hdr fileLen = none →
      Fsrecov.fsrecov_main_result hdr fileLen = Except.error 1) := by
  constructor
  · unfold Fsrecov.map_disk
    split
    · simp_all
    · split
      · simp_all
      · simp_all
  · intro h
    unfold Fsrecov.fsrecov_main_result
    rw [h]

/-- Claim C7, witness for the amended theorem: a header with a zeroed
signature word is rejected and main exits with status 1. -/
theorem C7_witness :
    Fsrecov.fsrecov_main_result
      { BPB_BytsPerSec := 512, BPB_SecPerClus := 1, BPB_RsvdSecCnt := 1,
        BPB_NumFATs := 1, BPB_FATSz32 := 1, BPB_TotSec32 := 5,
        Signature_word := 0 } 2560 = Except.error 1 :=
  (C7_map_disk_validation _ 2560).2 (by decide)

/-- Helper for C8: on byte-sized accumulators the source's
`((sum & 1) << 7) + (sum >> 1)` is exactly a rotate-right by one. -/
theorem rot_byte_eq : ∀ s, s < 256 →
    ((s &&& 1) <<< 7) + (s >>> 1) = Teest.rotr8 s := by decide

/-- Helper for C8: the two checksum folds agree from any byte-sized
accumulator. -/
theorem checksum_fold_eq (l : List Nat) : ∀ s, s < 256 →
    l.foldl (fun sum b => (((sum &&& 1) <<< 7) + (sum >>> 1) + b) % 256) s =
    l.foldl (fun sum b => (Teest.rotr8 sum + b) % 256) s := by
  induction l with
  | nil => intro s _; rfl
  | cons b rest ih =>
    intro s hs
    simp only [List.foldl_cons]
    rw [rot_byte_eq s hs]
    exact ih _ (Nat.mod_lt _ (by norm_num))

/--
Claim C8: calculate_lfn_checksum equals the fold that starts from 0 and
for each byte computes rotate_right(sum, 1) + b with 8-bit wrapping
addition, and every fragment of a well-formed LFN sequence built against
the short name stores exactly this value.
-/
theorem C8_lfn_checksum_rotate (name : List Nat) (h11 : name.length = 11)
    (hbytes : ∀ b ∈ name, b < 256) (frags : List Teest.ParsedEntryInfo)
    (hwf : Teest.well_formed_checksums name frags) :
    Teest.calculate_lfn_checksum name = Teest.lfn_checksum_spec name ∧
    ∀ f ∈ frags, f.lfn_checksum = Teest.lfn_checksum_spec name := by
  have he : Teest.calculate_lfn_checksum name = Teest.lfn_checksum_spec name :=
    checksum_fold_eq name 0 (by norm_num)
  exact ⟨he, fun f hf => (hwf f hf).trans he⟩

/-- Claim C8, witness: the short name "0M15CW~1BMP" from the teest.c dump,
whose checksum 137 (0x89) is exactly the value stored in both LFN entries
of that dump. -/
theorem C8_witness :
    Teest.calculate_lfn_checksum Fix.name11 = Teest.lfn_checksum_spec Fix.name11 ∧
    ∀ f ∈ [({ lfn_sequence := 65, lfn_checksum := 137, lfn_name1 := [],
              lfn_name2 := [], lfn_name3 := [], short_name := [] } :
            Teest.ParsedEntryInfo)],
      f.lfn_checksum = Teest.lfn_checksum_spec Fix.name11 :=
  C8_lfn_checksum_rotate Fix.name11 (by decide) (by decide) _
    (by intro f hf; simp only [List.mem_singleton] at hf; subst hf; decide)

/-- Helper for C9: the per-part copy loop is takeWhile on that part. -/
theorem take_part_eq_takeWhile (l : List Nat) :
    Shadow.take_part l = l.takeWhile (fun c => ¬(c = 0 ∨ c = 65535)) := by
  induction l with
  | nil => rfl
  | cons c rest ih =>
    unfold Shadow.take_part
    rw [List.takeWhile_cons]
    by_cases h : c = 0 ∨ c = 65535 <;> simp [h, ih]

/-- Helper for C9: the per-part copy never yields more units than the part
holds. -/
theorem take_part_length_le (l : List Nat) :
    (Shadow.take_part l).length ≤ l.length := by
  induction l with
  | nil => simp [Shadow.take_part]
  | cons c rest ih =>
    unfold Shadow.take_part
    by_cases h : c = 0 ∨ c = 65535 <;> simp [h]
    omega

/--
Claim C9, counterexample.  The claim states that no unit at or after the
first null/padding unit contributes.  In extract_long_filename the break
leaves only the current part's loop, so with Name1 = [65, 0, 66, 66, 66]
and Name2 starting with 67 the decoded text is [65, 67]: the unit 67,
which lies after the first null, still contributes (the spec's truncation
would give [65]).
-/
theorem C9_counterexample :
    Shadow.extract_lfn_units
      { LDIR_Ord := 1, LDIR_Name1 := [65, 0, 66, 66, 66], LDIR_Attr := 15,
        LDIR_Chksum := 0, LDIR_Name2 := [67, 0, 0, 0, 0, 0],
        LDIR_Name3 := [0, 0] } = [65, 67] ∧
    Shadow.decode_lfn_text_spec
      { LDIR_Ord := 1, LDIR_Name1 := [65, 0, 66, 66, 66], LDIR_Attr := 15,
        LDIR_Chksum := 0, LDIR_Name2 := [67, 0, 0, 0, 0, 0],
        LDIR_Name3 := [0, 0] } = [65] ∧
    ([65, 67] : List Nat) ≠ [65] := by
  refine ⟨by decide, by decide, by decide⟩

/--
Claim C9, amended: extracting a fragment's text yields at most 13 UTF-16
code units taken in order from Name1, Name2 and Name3, where EACH PART is
truncated independently at its own first null/padding unit (the break
leaves only that part's loop), so a unit after the first null can still
contribute when it lies in a later part.
-/
theorem C9_extract_per_part (e : Shadow.fat32_lfn_entry)
    (h1 : e.LDIR_Name1.length = 5) (h2 : e.LDIR_Name2.length = 6)
    (h3 : e.LDIR_Name3.length = 2) :
    Shadow.extract_lfn_units e =
      e.LDIR_Name1.takeWhile (fun c => ¬(c = 0 ∨ c = 65535)) ++
        e.LDIR_Name2.takeWhile (fun c => ¬(c = 0 ∨ c = 65535)) ++
        e.LDIR_Name3.takeWhile (fun c => ¬(c = 0 ∨ c = 65535)) ∧
    (Shadow.extract_lfn_units e).length ≤ 13 := by
  constructor
  · unfold Shadow.extract_lfn_units
    rw [take_part_eq_takeWhile, take_part_eq_takeWhile, take_part_eq_takeWhile]
  · have l1 := take_part_length_le e.LDIR_Name1
    have l2 := take_part_length_le e.LDIR_Name2
    have l3 := take_part_length_le e.LDIR_Name3
    unfold Shadow.extract_lfn_units
    simp only [List.length_append]
    omega

/-- Claim C9, witness for the amended theorem, at a fragment holding
"abcdefg" followed by padding. -/
theorem C9_witness :
    Shadow.extract_lfn_units
      { LDIR_Ord := 1, LDIR_Name1 := [97, 98, 99, 100, 101], LDIR_Attr := 15,
        LDIR_Chksum := 0, LDIR_Name2 := [102, 103, 0, 65535, 65535, 65535],
        LDIR_Name3 := [65535, 65535] } =
      (([97, 98, 99, 100, 101] : List Nat).takeWhile
          (fun c => ¬(c = 0 ∨ c = 65535)) ++
        (([102, 103, 0, 65535, 65535, 65535] : List Nat)).takeWhile
          (fun c => ¬(c = 0 ∨ c = 65535)) ++
        (([65535, 65535] : List Nat)).takeWhile
          (fun c => ¬(c = 0 ∨ c = 65535))) ∧
    (Shadow.extract_lfn_units
      { LDIR_Ord := 1, LDIR_Name1 := [97, 98, 99, 100, 101], LDIR_Attr := 15,
        LDIR_Chksum := 0, LDIR_Name2 := [102, 103, 0, 65535, 65535, 65535],
        LDIR_Name3 := [65535, 65535] }).length ≤ 13 :=
  C9_extract_per_part _ (by decide) (by decide) (by decide)

/-- Helper for C10: the scan loop never grows the registry past MAX_FILE. -/
theorem read_all_dents_loop_length (hdr : Fsrecov.fat32hdr) :
    ∀ recs acc, acc.length ≤ Fsrecov.MAX_FILE →
      (Fsrecov.read_all_dents_loop hdr recs acc).length ≤ Fsrecov.MAX_FILE := by
  intro recs
  induction recs with
  | nil => intro acc h; simpa [Fsrecov.read_all_dents_loop] using h
  | cons r rest ih =>
    intro acc h
    unfold Fsrecov.read_all_dents_loop
    dsimp only
    split
    · split
      · exact h
      · split
        · exact ih acc h
        · refine ih _ ?_
          simp only [List.length_append, List.length_cons, List.length_nil]
          omega
    · exact ih acc h

/--
Claim C10: after every step of the raw stride scan the registry holds at
most MAX_FILE = 256 records, and when a matching entry is met while the
registry is already full the scan stops at once, returning the registry
unchanged (all later matching entries are never recovered).
-/
theorem C10_registry_bound :
    (∀ hdr recs, (Fsrecov.read_all_dents hdr recs).length ≤ Fsrecov.MAX_FILE) ∧
    (∀ (hdr : Fsrecov.fat32hdr) (r : Fsrecov.ScanRec)
        (recs : List Fsrecov.ScanRec) (acc : List Fsrecov.bmp_file),
      Fsrecov.MAX_FILE ≤ acc.length → Fsrecov.dentMatches r.dent = true →
      Fsrecov.read_all_dents_loop hdr (r :: recs) acc = acc) := by
  constructor
  · intro hdr recs
    exact read_all_dents_loop_length hdr recs [] (by simp)
  · intro hdr r recs acc hfull hm
    unfold Fsrecov.read_all_dents_loop
    simp [hm, hfull]

/-- Claim C10, witness: a full registry of 256 records makes the scan stop
on the next matching entry, and the empty scan respects the bound. -/
theorem C10_witness :
    (Fsrecov.read_all_dents Fix.hdr1 []).length ≤ Fsrecov.MAX_FILE ∧
    Fsrecov.read_all_dents_loop Fix.hdr1
      [{ dent := { DIR_Name := [0, 0, 0, 0, 0, 0, 0, 0, 66, 77, 80],
                   DIR_Attr := 32, DIR_FstClusHI := 0, DIR_FstClusLO := 2,
                   DIR_FileSize := 1 }, lfn_chars := [] }]
      (List.replicate 256
        { short_name := [], full_name := none, first_cluster := 2, size := 1 }) =
      List.replicate 256
        { short_name := [], full_name := none, first_cluster := 2, size := 1 } :=
  ⟨C10_registry_bound.1 Fix.hdr1 [],
   C10_registry_bound.2 Fix.hdr1 _ _ _
     (by simp [Fsrecov.MAX_FILE]) (by decide)⟩

/-- Helper for C6: every record the scan loop ever emits has a first
cluster inside [2, max_valid_cluster_num]. -/
theorem read_all_dents_loop_mem (hdr : Fsrecov.fat32hdr) :
    ∀ recs acc b,
      (∀ x ∈ acc, 2 ≤ x.first_cluster ∧
        x.first_cluster ≤ Fsrecov.max_valid_cluster_num hdr) →
      b ∈ Fsrecov.read_all_dents_loop hdr recs acc →
      2 ≤ b.first_cluster ∧
        b.first_cluster ≤ Fsrecov.max_valid_cluster_num hdr := by
  intro recs
  induction recs with
  | nil =>
    intro acc b hacc hb
    exact hacc b (by simpa [Fsrecov.read_all_dents_loop] using hb)
  | cons r rest ih =>
    intro acc b hacc hb
    unfold Fsrecov.read_all_dents_loop at hb
    dsimp only at hb
    split at hb
    · split at hb
      · exact hacc b hb
      · split at hb
        · exact ih acc b hacc hb
        · refine ih _ b ?_ hb
          intro x hx
          rcases List.mem_append.mp hx with hx | hx
          · exact hacc x hx
          · simp only [List.mem_singleton] at hx
            subst hx
            rename_i hrange
            push_neg at hrange
            refine ⟨?_, ?_⟩ <;> dsimp only <;> omega
    · exact ih acc b hacc hb

/--
Claim C6: a candidate whose first cluster lies outside
[2, max_valid_cluster_num] never enters the scan registry, a candidate of
declared size 0 is rejected by read_bmp_data before any data is copied,
and hence no such candidate ever produces an output file.
-/
theorem C6_invalid_never_output :
    (∀ hdr recs b, b ∈ Fsrecov.read_all_dents hdr recs →
      2 ≤ b.first_cluster ∧
        b.first_cluster ≤ Fsrecov.max_valid_cluster_num hdr) ∧
    (∀ (hdr : Fsrecov.fat32hdr) (disk : Nat → Nat) (fc : Nat),
      Fsrecov.read_bmp_data hdr disk fc 0 = none) ∧
    (∀ (hdr : Fsrecov.fat32hdr) (disk : Nat → Nat) (fc size : Nat),
      fc < 2 ∨ fc > Fsrecov.max_valid_cluster_num hdr ∨ size = 0 →
      Fsrecov.candidate_recovered hdr disk fc size = false) := by
  refine ⟨?_, ?_, ?_⟩
  · intro hdr recs b hb
    exact read_all_dents_loop_mem hdr recs [] b (by simp) hb
  · intro hdr disk fc
    simp [Fsrecov.read_bmp_data]
  · intro hdr disk fc size h
    rcases h with h | h | h
    · have hne : ¬(2 ≤ fc ∧ fc ≤ Fsrecov.max_valid_cluster_num hdr) := by omega
      simp [Fsrecov.candidate_recovered, hne]
    · have hne : ¬(2 ≤ fc ∧ fc ≤ Fsrecov.max_valid_cluster_num hdr) := by omega
      simp [Fsrecov.candidate_recovered, hne]
    · subst h
      simp [Fsrecov.candidate_recovered, Fsrecov.read_bmp_data]

/-- Claim C6, witness: cluster 0 with a nonzero size is never recovered
under the Fix.hdr1 geometry. -/
theorem C6_witness :
    Fsrecov.candidate_recovered Fix.hdr1 Fix.disk0 0 5 = false :=
  C6_invalid_never_output.2.2 Fix.hdr1 Fix.disk0 0 5 (Or.inl (by decide))

/-- Helper for C2: the contiguity loop with two clusters to check, both
passing. -/
theorem contigLoop_two (probe : Nat → Bool) (s : Nat) (cl : List Nat)
    (h1 : probe ((s + 1) % U32) = true) (h2 : probe ((s + 2) % U32) = true) :
    Shadow.contigLoop probe s 2 1 cl =
      ((cl.set 1 ((s + 1) % U32)).set 2 ((s + 2) % U32), true) := by
  simp [Shadow.contigLoop, h1, h2]

/--
Claim C2: for a candidate needing exactly three clusters whose first
cluster carries the BMP header signature and whose clusters first+1 and
first+2 pass the pixel-smoothness heuristic, recover_file_data returns
valid = true with the cluster chain exactly [first, first+1, first+2].
-/
theorem C2_contiguous_resolution
    (disk : Nat → Nat) (start fs cs dss bps : Nat)
    (hneed : (fs + cs - 1) / cs = 3)
    (hwrap : start + 2 < U32)
    (hhdr : Shadow.is_bmp_header disk
      (Shadow.clusterOffset dss bps cs start) = true)
    (hp1 : Shadow.cluster_probe disk dss bps cs (start + 1) = true)
    (hp2 : Shadow.cluster_probe disk dss bps cs (start + 2) = true) :
    (Shadow.recover_file_data disk start fs cs dss bps).clusters =
      [start, start + 1, start + 2] ∧
    (Shadow.recover_file_data disk start fs cs dss bps).valid = true := by
  have e1 : (start + 1) % U32 = start + 1 := Nat.mod_eq_of_lt (by omega)
  have e2 : (start + 2) % U32 = start + 2 := Nat.mod_eq_of_lt (by omega)
  have hp1m : Shadow.cluster_probe disk dss bps cs ((start + 1) % U32) = true := by
    rw [e1]; exact hp1
  have hp2m : Shadow.cluster_probe disk dss bps cs ((start + 2) % U32) = true := by
    rw [e2]; exact hp2
  unfold Shadow.recover_file_data
  dsimp only
  rw [hneed]
  norm_num
  rw [contigLoop_two _ _ _ hp1m hp2m]
  dsimp only
  rw [e1, e2]
  constructor
  · simp [List.replicate, List.set]
  · rfl

/-- Helper for C2/C3 witnesses and C3: a first-cluster probe failure makes
the contiguity loop stop immediately with contiguous = false. -/
theorem contigLoop_fail1 (probe : Nat → Bool) (s fuel : Nat) (cl : List Nat)
    (h : probe ((s + 1) % U32) = false) :
    Shadow.contigLoop probe s (fuel + 1) 1 cl = (cl, false) := by
  simp [Shadow.contigLoop, h]

/-- Helper for C3: when offsets 1..6 fail and offset 7 passes, the bounded
forward search returns cluster s + 7. -/
theorem findCand_seven (probe : Nat → Bool) (s : Nat) (hw : s + 7 < U32)
    (hf : ∀ o, 1 ≤ o → o ≤ 6 → probe (s + o) = false)
    (hp : probe (s + 7) = true) :
    Shadow.findCand probe s 1 100 = some (s + 7) := by
  have e : ∀ o, o ≤ 7 → (s + o) % U32 = s + o := fun o ho =>
    Nat.mod_eq_of_lt (by omega)
  simp [Shadow.findCand,
    e 1 (by norm_num), e 2 (by norm_num), e 3 (by norm_num),
    e 4 (by norm_num), e 5 (by norm_num), e 6 (by norm_num), e 7 (by norm_num),
    hf 1 (by norm_num) (by norm_num), hf 2 (by norm_num) (by norm_num),
    hf 3 (by norm_num) (by norm_num), hf 4 (by norm_num) (by norm_num),
    hf 5 (by norm_num) (by norm_num), hf 6 (by norm_num) (by norm_num), hp]

/-- Helper for C3: the give-up fill only writes indices ≥ 2, so it
preserves the second chain element. -/
theorem contigFillLoop_get1 (idx : Nat) :
    ∀ fuel i cl, 2 ≤ i →
      (Shadow.contigFillLoop idx fuel i cl)[1]? = cl[1]? := by
  intro fuel
  induction fuel with
  | zero => intro i cl _; rfl
  | succ f ih =>
    intro i cl hi
    unfold Shadow.contigFillLoop
    rw [ih (i + 1) _ (by omega)]
    exact List.getElem?_set_ne (by omega)

/-- Helper for C3: once the fallback loop has confirmed index 1, later
iterations only write indices ≥ 2 and preserve the second chain element. -/
theorem fallbackLoop_get1 (probe : Nat → Bool) (needed : Nat) :
    ∀ fuel cur idx cl, 1 ≤ idx →
      (Shadow.fallbackLoop probe needed fuel cur idx cl)[1]? = cl[1]? := by
  intro fuel
  induction fuel with
  | zero => intro cur idx cl _; rfl
  | succ f ih =>
    intro cur idx cl hidx
    unfold Shadow.fallbackLoop
    split
    · rcases hfc : Shadow.findCand probe cur 1 100 with _ | cand
      · dsimp only
        exact contigFillLoop_get1 idx _ (idx + 1) cl (by omega)
      · dsimp only
        rw [ih cand (idx + 1) _ (by omega)]
        exact List.getElem?_set_ne (by omega)
    · rfl

/-- Helper for C3: the first fallback iteration records the cluster found
by the forward search at chain index 1. -/
theorem fallbackLoop_step (probe : Nat → Bool) (needed fuel cur c : Nat)
    (cl : List Nat) (h : 0 < needed)
    (hfc : Shadow.findCand probe cur 1 100 = some c) :
    Shadow.fallbackLoop probe needed (fuel + 1) cur 0 cl =
      Shadow.fallbackLoop probe needed fuel c 1 (cl.set 1 c) := by
  simp [Shadow.fallbackLoop, h, hfc]

/--
Claim C3: for a candidate needing at least two clusters where cluster
first+1 fails the content heuristic and first+7 is the first cluster in
the bounded 100-cluster forward window that passes it, recover_file_data
places first+7 — not the failing first+1 — as the second element of the
returned cluster chain.
-/
theorem C3_fallback_selects_first_passing
    (disk : Nat → Nat) (start fs cs dss bps : Nat)
    (hneed : 2 ≤ (fs + cs - 1) / cs)
    (hwrap : start + 7 < U32)
    (hfail : ∀ o, 1 ≤ o → o ≤ 6 →
      Shadow.cluster_probe disk dss bps cs (start + o) = false)
    (hpass : Shadow.cluster_probe disk dss bps cs (start + 7) = true) :
    ((Shadow.recover_file_data disk start fs cs dss bps).clusters)[1]? =
      some (start + 7) := by
  obtain ⟨m, hm⟩ : ∃ m, (fs + cs - 1) / cs = m + 2 :=
    ⟨(fs + cs - 1) / cs - 2, by omega⟩
  have hp1 : Shadow.cluster_probe disk dss bps cs ((start + 1) % U32) = false := by
    rw [Nat.mod_eq_of_lt (by omega)]
    exact hfail 1 (by norm_num) (by norm_num)
  have hfind : Shadow.findCand
      (Shadow.cluster_probe disk dss bps cs) start 1 100 = some (start + 7) :=
    findCand_seven _ start hwrap hfail hpass
  unfold Shadow.recover_file_data
  dsimp only
  rw [hm, show m + 2 - 1 = m + 1 from rfl]
  rw [contigLoop_fail1 _ _ _ _ hp1]
  dsimp only
  rw [if_pos ⟨by simp, by omega⟩]
  dsimp only
  rw [fallbackLoop_step _ _ _ _ _ _ (by omega) hfind]
  rw [fallbackLoop_get1 _ _ _ _ _ _ (by norm_num)]
  refine List.getElem?_set_eq_of_lt _ ?_
  simp

/-- Claim C2, witness: on the Fix.diskC2 image (BMP header in cluster 2,
smooth data in clusters 3 and 4, 32-byte clusters, 80-byte declared size)
the resolver returns exactly [2, 3, 4] with valid = true. -/
theorem C2_witness :
    (Shadow.recover_file_data Fix.diskC2 2 80 32 2 32).clusters = [2, 3, 4] ∧
    (Shadow.recover_file_data Fix.diskC2 2 80 32 2 32).valid = true :=
  C2_contiguous_resolution Fix.diskC2 2 80 32 2 32 (by decide) (by decide)
    (by decide) (by decide) (by decide)

/-- Claim C3, witness: on the Fix.diskC3 image (clusters 3..8 fail the
smoothness heuristic, cluster 9 passes, 40-byte declared size needing two
clusters) the resolver records cluster 9 = 2 + 7 as the second chain
element. -/
theorem C3_witness :
    ((Shadow.recover_file_data Fix.diskC3 2 40 32 2 32).clusters)[1]? =
      some 9 :=
  C3_fallback_selects_first_passing Fix.diskC3 2 40 32 2 32 (by decide)
    (by decide)
    (by intro o h1 h6; interval_cases o <;> decide)
    (by decide)

/--
Claim C5, counterexample.  The claim states that on a checksum mismatch
the scanner falls back to the short name and never uses the mismatched
long name.  With one LFN entry spelling "x.bmp" that stores checksum 0
against a short entry "AAAAAAAABMP" (whose recomputed checksum is not 0),
reconstruct_lfn_from_sequence emits the mismatch diagnostic (flag true)
and still returns the long name "x.bmp", which differs from the
short-name fallback.
-/
theorem C5_counterexample :
    Teest.reconstruct_lfn_from_sequence
      [{ lfn_sequence := 1, lfn_checksum := 0,
         lfn_name1 := [120, 46, 98, 109, 112],
         lfn_name2 := [0, 0, 0, 0, 0, 0], lfn_name3 := [0, 0],
         short_name := [] }]
      { lfn_sequence := 0, lfn_checksum := 0, lfn_name1 := [],
        lfn_name2 := [], lfn_name3 := [],
        short_name := [65, 65, 65, 65, 65, 65, 65, 65, 66, 77, 80] } 260 =
      ([120, 46, 98, 109, 112], true) ∧
    ([120, 46, 98, 109, 112] : List Nat) ≠
      Teest.fallback_short_name
        [65, 65, 65, 65, 65, 65, 65, 65, 66, 77, 80] 260 := by
  refine ⟨by decide, by decide⟩

/--
Claim C5, amended: a checksum mismatch is soft — the scanner emits a
diagnostic and never aborts — but it does NOT fall back to the short
name: whenever at least one LFN entry precedes the short entry, the
reconstructed name is the LFN-decoded text, independent of the short
entry (and hence of whether the recomputed checksum matches the stored
one).
-/
theorem C5_mismatch_soft_keeps_lfn (lfns : List Teest.ParsedEntryInfo)
    (s1 s2 : Teest.ParsedEntryInfo) (bsz : Nat) (h : lfns ≠ []) :
    (Teest.reconstruct_lfn_from_sequence lfns s1 bsz).1 =
      ((lfns.flatMap Teest.entry_units).map
        Teest.utf16le_to_printable_ascii).take (bsz - 1) ∧
    (Teest.reconstruct_lfn_from_sequence lfns s1 bsz).1 =
      (Teest.reconstruct_lfn_from_sequence lfns s2 bsz).1 := by
  have hlen : ¬ lfns.length = 0 := by simpa [List.length_eq_zero] using h
  unfold Teest.reconstruct_lfn_from_sequence
  rw [if_neg hlen, if_neg hlen]
  exact ⟨rfl, rfl⟩

/-- Claim C5, witness for the amended theorem: the counterexample input,
where the name is the LFN text "x.bmp" no matter which short entry (and
stored checksum) accompanies it. -/
theorem C5_witness :
    (Teest.reconstruct_lfn_from_sequence
      [{ lfn_sequence := 1, lfn_checksum := 0,
         lfn_name1 := [120, 46, 98, 109, 112],
         lfn_name2 := [0, 0, 0, 0, 0, 0], lfn_name3 := [0, 0],
         short_name := [] }]
      { lfn_sequence := 0, lfn_checksum := 0, lfn_name1 := [],
        lfn_name2 := [], lfn_name3 := [],
        short_name := [65, 65, 65, 65, 65, 65, 65, 65, 66, 77, 80] } 260).1 =
      ((([{ lfn_sequence := 1, lfn_checksum := 0,
            lfn_name1 := [120, 46, 98, 109, 112],
            lfn_name2 := [0, 0, 0, 0, 0, 0], lfn_name3 := [0, 0],
            short_name := [] }] :
          List Teest.ParsedEntryInfo).flatMap Teest.entry_units).map
        Teest.utf16le_to_printable_ascii).take (260 - 1) ∧
    (Teest.reconstruct_lfn_from_sequence
      [{ lfn_sequence := 1, lfn_checksum := 0,
         lfn_name1 := [120, 46, 98, 109, 112],
         lfn_name2 := [0, 0, 0, 0, 0, 0], lfn_name3 := [0, 0],
         short_name := [] }]
      { lfn_sequence := 0, lfn_checksum := 0, lfn_name1 := [],
        lfn_name2 := [], lfn_name3 := [],
        short_name := [65, 65, 65, 65, 65, 65, 65, 65, 66, 77, 80] } 260).1 =
    (Teest.reconstruct_lfn_from_sequence
      [{ lfn_sequence := 1, lfn_checksum := 0,
         lfn_name1 := [120, 46, 98, 109, 112],
         lfn_name2 := [0, 0, 0, 0, 0, 0], lfn_name3 := [0, 0],
         short_name := [] }]
      { lfn_sequence := 0, lfn_checksum := 0, lfn_name1 := [],
        lfn_name2 := [], lfn_name3 := [], short_name := [] } 260).1 :=
  C5_mismatch_soft_keeps_lfn _ _ _ 260 (by simp)

/-- Helper for C4: the copy loop of read_bmp_data computes exactly the
spec-side materialize of the remaining bytes, appended to the accumulator,
with matching incomplete flag. -/
theorem read_bmp_loop_eq_materialize (hdr : Fsrecov.fat32hdr)
    (disk : Nat → Nat) (bpc size : Nat) :
    ∀ fuel cur copied acc,
      Fsrecov.read_bmp_loop hdr disk bpc size fuel cur copied acc =
        { bytes := acc ++ (Fsrecov.materialize (Fsrecov.cluster_to_sec hdr)
            disk bpc fuel cur (size - copied)).1,
          incomplete := (Fsrecov.materialize (Fsrecov.cluster_to_sec hdr)
            disk bpc fuel cur (size - copied)).2 } := by
  intro fuel
  induction fuel with
  | zero =>
    intro cur copied acc
    simp [Fsrecov.read_bmp_loop, Fsrecov.materialize]
  | succ f ih =>
    intro cur copied acc
    unfold Fsrecov.read_bmp_loop Fsrecov.materialize
    rcases hc : Fsrecov.cluster_to_sec hdr cur with _ | off
    · simp
    · dsimp only
      rw [ih]
      have hsub : size - (copied + min (size - copied) bpc) =
          size - copied - min (size - copied) bpc := by omega
      rw [hsub, List.append_assoc]

/-- Helper for C4: when every needed cluster is mappable, materialize
copies min(remaining, n * cluster_size) bytes and is complete. -/
theorem materialize_complete (lookup : Nat → Option Nat) (disk : Nat → Nat)
    (bpc : Nat) :
    ∀ n cur s, cur < U32 →
      (∀ i, i < n → (lookup ((cur + i) % U32)).isSome = true) →
      (Fsrecov.materialize lookup disk bpc n cur s).1.length = min s (n * bpc) ∧
      (Fsrecov.materialize lookup disk bpc n cur s).2 = false := by
  intro n
  induction n with
  | zero => intro cur s _ _; simp [Fsrecov.materialize]
  | succ m ih =>
    intro cur s hcur hall
    have h0 : (lookup cur).isSome = true := by
      have h := hall 0 (by omega)
      rwa [Nat.add_zero, Nat.mod_eq_of_lt hcur] at h
    rcases hl : lookup cur with _ | off
    · rw [hl] at h0; simp at h0
    · have hall2 : ∀ i, i < m →
          (lookup (((cur + 1) % U32 + i) % U32)).isSome = true := by
        intro i hi
        have h := hall (i + 1) (by omega)
        have he : ((cur + 1) % U32 + i) % U32 = (cur + (i + 1)) % U32 := by
          rw [Nat.mod_add_mod]
          congr 1
          omega
        rwa [he]
      have hrec := ih ((cur + 1) % U32) (s - min s bpc)
        (Nat.mod_lt _ (by norm_num [U32])) hall2
      unfold Fsrecov.materialize
      rw [hl]
      dsimp only
      constructor
      · simp only [List.length_append, List.length_map, List.length_range]
        rw [hrec.1, Nat.succ_mul]
        generalize m * bpc = A
        omega
      · exact hrec.2

/-- Helper for C4: when the k-th cluster of the chain is the first one the
Volume Accessor cannot map, materialize returns the k complete clusters
copied so far (capped by the remaining bytes) and flags the result
incomplete. -/
theorem materialize_fails (lookup : Nat → Option Nat) (disk : Nat → Nat)
    (bpc : Nat) :
    ∀ k n cur s, cur < U32 → k < n →
      (∀ i, i < k → (lookup ((cur + i) % U32)).isSome = true) →
      lookup ((cur + k) % U32) = none →
      (Fsrecov.materialize lookup disk bpc n cur s).2 = true ∧
      (Fsrecov.materialize lookup disk bpc n cur s).1.length = min s (k * bpc) := by
  intro k
  induction k with
  | zero =>
    intro n cur s hcur hkn _ hnone
    rw [Nat.add_zero, Nat.mod_eq_of_lt hcur] at hnone
    rcases n with _ | m
    · omega
    · unfold Fsrecov.materialize
      rw [hnone]
      simp
  | succ j ih =>
    intro n cur s hcur hkn hall hnone
    rcases n with _ | m
    · omega
    · have h0 : (lookup cur).isSome = true := by
        have h := hall 0 (by omega)
        rwa [Nat.add_zero, Nat.mod_eq_of_lt hcur] at h
      rcases hl : lookup cur with _ | off
      · rw [hl] at h0; simp at h0
      · have hall2 : ∀ i, i < j →
            (lookup (((cur + 1) % U32 + i) % U32)).isSome = true := by
          intro i hi
          have h := hall (i + 1) (by omega)
          have he : ((cur + 1) % U32 + i) % U32 = (cur + (i + 1)) % U32 := by
            rw [Nat.mod_add_mod]
            congr 1
            omega
          rwa [he]
        have hnone2 : lookup (((cur + 1) % U32 + j) % U32) = none := by
          have he : ((cur + 1) % U32 + j) % U32 = (cur + (j + 1)) % U32 := by
            rw [Nat.mod_add_mod]
            congr 1
            omega
          rwa [he]
        have hrec := ih m ((cur + 1) % U32) (s - min s bpc)
          (Nat.mod_lt _ (by norm_num [U32])) (by omega) hall2 hnone2
        unfold Fsrecov.materialize
        rw [hl]
        dsimp only
        constructor
        · exact hrec.1
        · simp only [List.length_append, List.length_map, List.length_range]
          rw [hrec.2, Nat.succ_mul]
          generalize j * bpc = A
          omega

/--
Claim C4: read_bmp_data computes exactly the spec's materialize over the
contiguous chain starting at first_cluster: the total copied across the
clusters in order is exactly the declared size when every cluster is
mappable (only the remainder is taken from the final cluster, which is
what makes the total equal the size rather than a multiple of the cluster
size), and when the k-th cluster cannot be mapped it returns the partial
buffer of the k * cluster_size bytes copied so far, marked incomplete,
instead of aborting (the result is still `some`).
-/
theorem C4_read_bmp_data_materializes (hdr : Fsrecov.fat32hdr)
    (disk : Nat → Nat) (first size bpc needed : Nat)
    (hbpc : bpc = hdr.BPB_SecPerClus * hdr.BPB_BytsPerSec)
    (hneed : needed = (size + bpc - 1) / bpc)
    (hsz : 0 < size) (hfir : first < U32) :
    Fsrecov.read_bmp_data hdr disk first size =
      some { bytes := (Fsrecov.materialize (Fsrecov.cluster_to_sec hdr) disk
                bpc needed first size).1,
             incomplete := (Fsrecov.materialize (Fsrecov.cluster_to_sec hdr)
                disk bpc needed first size).2 } ∧
    (0 < bpc →
      (∀ i, i < needed →
        (Fsrecov.cluster_to_sec hdr ((first + i) % U32)).isSome = true) →
      (Fsrecov.materialize (Fsrecov.cluster_to_sec hdr) disk bpc needed
        first size).1.length = size ∧
      (Fsrecov.materialize (Fsrecov.cluster_to_sec hdr) disk bpc needed
        first size).2 = false) ∧
    (∀ k, 0 < bpc → k < needed →
      (∀ i, i < k →
        (Fsrecov.cluster_to_sec hdr ((first + i) % U32)).isSome = true) →
      Fsrecov.cluster_to_sec hdr ((first + k) % U32) = none →
      (Fsrecov.materialize (Fsrecov.cluster_to_sec hdr) disk bpc needed
        first size).2 = true ∧
      (Fsrecov.materialize (Fsrecov.cluster_to_sec hdr) disk bpc needed
        first size).1.length = k * bpc) := by
  subst hbpc
  subst hneed
  refine ⟨?_, ?_, ?_⟩
  · unfold Fsrecov.read_bmp_data
    rw [if_neg (by omega)]
    dsimp only
    rw [read_bmp_loop_eq_materialize]
    simp
  · intro hbpcpos hall
    have h := materialize_complete (Fsrecov.cluster_to_sec hdr) disk
      (hdr.BPB_SecPerClus * hdr.BPB_BytsPerSec)
      ((size + hdr.BPB_SecPerClus * hdr.BPB_BytsPerSec - 1) /
        (hdr.BPB_SecPerClus * hdr.BPB_BytsPerSec))
      first size hfir hall
    refine ⟨?_, h.2⟩
    rw [h.1]
    have hlt : size + hdr.BPB_SecPerClus * hdr.BPB_BytsPerSec - 1 <
        (size + hdr.BPB_SecPerClus * hdr.BPB_BytsPerSec - 1) /
          (hdr.BPB_SecPerClus * hdr.BPB_BytsPerSec) *
          (hdr.BPB_SecPerClus * hdr.BPB_BytsPerSec) +
          hdr.BPB_SecPerClus * hdr.BPB_BytsPerSec :=
      Nat.lt_div_mul_add hbpcpos
    generalize (size + hdr.BPB_SecPerClus * hdr.BPB_BytsPerSec - 1) /
      (hdr.BPB_SecPerClus * hdr.BPB_BytsPerSec) *
      (hdr.BPB_SecPerClus * hdr.BPB_BytsPerSec) = A at hlt ⊢
    omega
  · intro k hbpcpos hk hall hnone
    have h := materialize_fails (Fsrecov.cluster_to_sec hdr) disk
      (hdr.BPB_SecPerClus * hdr.BPB_BytsPerSec) k
      ((size + hdr.BPB_SecPerClus * hdr.BPB_BytsPerSec - 1) /
        (hdr.BPB_SecPerClus * hdr.BPB_BytsPerSec))
      first size hfir hk hall hnone
    refine ⟨h.1, ?_⟩
    rw [h.2]
    have hub : ((size + hdr.BPB_SecPerClus * hdr.BPB_BytsPerSec - 1) /
        (hdr.BPB_SecPerClus * hdr.BPB_BytsPerSec)) *
        (hdr.BPB_SecPerClus * hdr.BPB_BytsPerSec) ≤
        size + hdr.BPB_SecPerClus * hdr.BPB_BytsPerSec - 1 :=
      Nat.div_mul_le_self _ _
    have hkk : k * (hdr.BPB_SecPerClus * hdr.BPB_BytsPerSec) + 
        (hdr.BPB_SecPerClus * hdr.BPB_BytsPerSec) ≤
        ((size + hdr.BPB_SecPerClus * hdr.BPB_BytsPerSec - 1) /
          (hdr.BPB_SecPerClus * hdr.BPB_BytsPerSec)) *
          (hdr.BPB_SecPerClus * hdr.BPB_BytsPerSec) := by
      have := Nat.mul_le_mul_right
        (k := hdr.BPB_SecPerClus * hdr.BPB_BytsPerSec) (by omega :
          k + 1 ≤ (size + hdr.BPB_SecPerClus * hdr.BPB_BytsPerSec - 1) /
            (hdr.BPB_SecPerClus * hdr.BPB_BytsPerSec))
      rw [Nat.succ_mul] at this
      exact this
    generalize k * (hdr.BPB_SecPerClus * hdr.BPB_BytsPerSec) = A at hkk ⊢
    generalize ((size + hdr.BPB_SecPerClus * hdr.BPB_BytsPerSec - 1) /
      (hdr.BPB_SecPerClus * hdr.BPB_BytsPerSec)) *
      (hdr.BPB_SecPerClus * hdr.BPB_BytsPerSec) = B at hub hkk
    omega

/-- Claim C4, witness: the Fix.hdr1 geometry (512-byte clusters) with a
600-byte declared size needing two clusters. -/
theorem C4_witness :
    Fsrecov.read_bmp_data Fix.hdr1 Fix.disk0 2 600 =
      some { bytes := (Fsrecov.materialize (Fsrecov.cluster_to_sec Fix.hdr1)
                Fix.disk0 512 2 2 600).1,
             incomplete := (Fsrecov.materialize (Fsrecov.cluster_to_sec Fix.hdr1)
                Fix.disk0 512 2 2 600).2 } ∧
    (0 < 512 →
      (∀ i, i < 2 →
        (Fsrecov.cluster_to_sec Fix.hdr1 ((2 + i) % U32)).isSome = true) →
      (Fsrecov.materialize (Fsrecov.cluster_to_sec Fix.hdr1) Fix.disk0
        512 2 2 600).1.length = 600 ∧
      (Fsrecov.materialize (Fsrecov.cluster_to_sec Fix.hdr1) Fix.disk0
        512 2 2 600).2 = false) ∧
    (∀ k, 0 < 512 → k < 2 →
      (∀ i, i < k →
        (Fsrecov.cluster_to_sec Fix.hdr1 ((2 + i) % U32)).isSome = true) →
      Fsrecov.cluster_to_sec Fix.hdr1 ((2 + k) % U32) = none →
      (Fsrecov.materialize (Fsrecov.cluster_to_sec Fix.hdr1) Fix.disk0
        512 2 2 600).2 = true ∧
      (Fsrecov.materialize (Fsrecov.cluster_to_sec Fix.hdr1) Fix.disk0
        512 2 2 600).1.length = k * 512) :=
  C4_read_bmp_data_materializes Fix.hdr1 Fix.disk0 2 600 512 2 (by decide)
    (by decide) (by decide) (by decide)
